import Mathlib

/-!
Shallow embedding of llvmlite's FFI bridge sources
(`ffi/attribute.cpp` and `ffi/transforms.cpp`).

The two translation units are thin C wrappers over the LLVM library.
The wrapper logic itself (handle-kind validation, iterator cursors,
name sanitisation, property forwarding) is embedded faithfully from
the source.  LLVM-library internals that the wrappers call into
(attribute storage kinds, `PassManagerBuilder` field types, the
enum-attribute registry, `CodeExtractor::extractCodeRegion`) are not
part of this repository; where they decide a property they are
modelled from the specification's words, with a doc comment saying so.

Strings from the C++ side (`std::string`, `StringRef`) are modelled as
`List Char` for function names (where character-level reasoning is
needed) and as `String` for diagnostic messages.
-/

namespace Llvmlite

/-! ## Attributes (`ffi/attribute.cpp`) -/

/-- Modelled from the spec: an LLVM attribute is "classified as
enum-valued, integer-valued, type-valued, or string-valued" (glossary),
and "an attribute has exactly one underlying kind internally" (§4.1).
The payloads are abstracted to the data each storage kind carries. -/
inductive Attribute where
  | typeAttr (kind : Nat)
  | intAttr (kind : Nat) (value : Nat)
  | enumAttr (kind : Nat)
  | stringAttr (key : List Char) (value : List Char)
deriving DecidableEq, Inhabited

/-- `llvm::Attribute::isTypeAttribute` (LLVM library, modelled from the
spec's classification): true exactly on the type-valued storage kind. -/
def Attribute.isTypeAttribute : Attribute → Bool
  | .typeAttr _ => true
  | _ => false

/-- `llvm::Attribute::isIntAttribute` (LLVM library, modelled from the
spec's classification): true exactly on the integer-valued storage kind. -/
def Attribute.isIntAttribute : Attribute → Bool
  | .intAttr _ _ => true
  | _ => false

/-- `llvm::Attribute::isEnumAttribute` (LLVM library, modelled from the
spec's classification): true exactly on the enum-valued storage kind. -/
def Attribute.isEnumAttribute : Attribute → Bool
  | .enumAttr _ => true
  | _ => false

/-- `llvm::Attribute::isStringAttribute` (LLVM library, modelled from the
spec's classification): true exactly on the string-valued storage kind. -/
def Attribute.isStringAttribute : Attribute → Bool
  | .stringAttr _ _ => true
  | _ => false

/-- `LLVMPY_AttributeIsType` (attribute.cpp:159-163): unwraps the handle
and forwards to `Attribute::isTypeAttribute`. -/
def LLVMPY_AttributeIsType (A : Attribute) : Bool :=
  A.isTypeAttribute

/-- `LLVMPY_AttributeIsInt` (attribute.cpp:165-169): unwraps the handle
and forwards to `Attribute::isIntAttribute`. -/
def LLVMPY_AttributeIsInt (A : Attribute) : Bool :=
  A.isIntAttribute

/-- `LLVMPY_AttributeIsEnum` (attribute.cpp:171-175): unwraps the handle
and forwards to `Attribute::isEnumAttribute`. -/
def LLVMPY_AttributeIsEnum (A : Attribute) : Bool :=
  A.isEnumAttribute

/-- `LLVMPY_AttributeIsString` (attribute.cpp:177-181): unwraps the handle
and forwards to `Attribute::isStringAttribute`. -/
def LLVMPY_AttributeIsString (A : Attribute) : Bool :=
  A.isStringAttribute

/-- `llvm::AttributeSet`: the attributes attached at one index of an
attribute list; iterated in order by `begin()`/`end()`. -/
abbrev AttributeSet : Type := List Attribute

/-- An `llvm::AttributeList` as iterated by `begin()`/`end()`: the
sequence of attribute groups (one `AttributeSet` per occupied index). -/
abbrev AttributeList : Type := List AttributeSet

/-- `struct AttributeListIterator` (attribute.cpp:10-17): a `{cur, end}`
pair of iterators into an attribute list.  The two pointers are modelled
as indices into the underlying group sequence. -/
structure AttributeListIterator where
  groups : List AttributeSet
  cur : Nat
  endIdx : Nat
deriving DecidableEq

/-- `struct AttributeSetIterator` (attribute.cpp:23-30): a `{cur, end}`
pair of iterators into an attribute set, modelled as indices. -/
structure AttributeSetIterator where
  attrs : List Attribute
  cur : Nat
  endIdx : Nat
deriving DecidableEq

/-- The slice of `llvm::Function` these wrappers touch: its name and its
attribute list (`getAttributes()`). -/
structure Function where
  name : List Char
  attributes : List AttributeSet
deriving DecidableEq

/-- `llvm::Function::getAttributes`. -/
def Function.getAttributes (f : Function) : List AttributeSet :=
  f.attributes

/-- The slice of `llvm::GlobalVariable` these wrappers touch: its
attribute set (`getAttributes()`). -/
structure GlobalVariable where
  attributes : List Attribute
deriving DecidableEq

/-- `LLVMPY_FunctionAttributesIter` (attribute.cpp:57-63): reads the
function's attribute list and allocates a fresh list cursor from its
`begin()`/`end()` pair. -/
def LLVMPY_FunctionAttributesIter (F : Function) : AttributeListIterator :=
  { groups := F.getAttributes, cur := 0, endIdx := F.getAttributes.length }

/-- `LLVMPY_GlobalAttributesIter` (attribute.cpp:96-102): reads the
global's attribute set and allocates a fresh set cursor from its
`begin()`/`end()` pair. -/
def LLVMPY_GlobalAttributesIter (G : GlobalVariable) : AttributeSetIterator :=
  { attrs := G.attributes, cur := 0, endIdx := G.attributes.length }

/-- `LLVMPY_AttributeListIterNext` (attribute.cpp:104-115): if the cursor
is not at its end, returns a fresh set cursor over the group at the
current position and advances `cur`; otherwise returns `NULL` (here
`none`) and leaves the cursor untouched.  The mutation of the
heap-allocated iterator is made explicit by returning the updated
cursor state alongside the result. -/
def LLVMPY_AttributeListIterNext (iter : AttributeListIterator) :
    Option AttributeSetIterator × AttributeListIterator :=
  if iter.cur ≠ iter.endIdx then
    let attrs : List Attribute := iter.groups.getD iter.cur default
    (some { attrs := attrs, cur := 0, endIdx := attrs.length },
     { iter with cur := iter.cur + 1 })
  else
    (none, iter)

/-- `LLVMPY_AttributeSetIterNext` (attribute.cpp:117-129): if the cursor
is not at its end, returns the attribute at the current position and
advances `cur`; otherwise returns `NULL` (here `none`) and leaves the
cursor untouched. -/
def LLVMPY_AttributeSetIterNext (iter : AttributeSetIterator) :
    Option Attribute × AttributeSetIterator :=
  if iter.cur ≠ iter.endIdx then
    (some (iter.attrs.getD iter.cur default),
     { iter with cur := iter.cur + 1 })
  else
    (none, iter)

/-- State of a list cursor after `k` successive advance calls. -/
def advanceListIter (it : AttributeListIterator) : Nat → AttributeListIterator
  | 0 => it
  | k + 1 => (LLVMPY_AttributeListIterNext (advanceListIter it k)).2

/-- State of a set cursor after `k` successive advance calls. -/
def advanceSetIter (it : AttributeSetIterator) : Nat → AttributeSetIterator
  | 0 => it
  | k + 1 => (LLVMPY_AttributeSetIterNext (advanceSetIter it k)).2

/-- Modelled from the spec: the registry behind
`LLVMGetEnumAttributeKindForName` (an LLVM library function not in this
repository).  The spec requires only that a known name such as
"nonnull" maps to a stable non-zero id and an unknown name to the zero
sentinel; a representative fixed table stands in for the full registry. -/
def enumAttributeKindTable : List (List Char × Nat) :=
  [("alwaysinline".toList, 2),
   ("noinline".toList, 36),
   ("nonnull".toList, 39),
   ("noreturn".toList, 42)]

/-- Association lookup used by the modelled registry. -/
def lookupEnumKind (name : List Char) :
    List (List Char × Nat) → Option Nat
  | [] => none
  | (k, v) :: rest => if name = k then some v else lookupEnumKind name rest

/-- `LLVMPY_GetEnumAttributeKindForName` (attribute.cpp:141-145):
forwards to `LLVMGetEnumAttributeKindForName`; zero is returned if no
match.  The `(name, len)` pair of the C signature is a length-delimited
string, modelled as the `List Char` it denotes. -/
def LLVMPY_GetEnumAttributeKindForName (name : List Char) : Nat :=
  (lookupEnumKind name enumAttributeKindTable).getD 0

/-! ## Pass-manager builder (`ffi/transforms.cpp`) -/

/-- The fields of `llvm::PassManagerBuilder` these wrappers touch.
Modelled from the spec: the builder is LLVM library code; per §3 the
optimization and size levels are unsigned levels while loop-vectorize,
SLP-vectorize and disable-unroll-loops are boolean "toggles"/"flags"
(C++ `bool` fields, so storing an `int` normalises it to 0/1). -/
structure PassManagerBuilder where
  OptLevel : Nat
  SizeLevel : Nat
  DisableUnrollLoops : Bool
  LoopVectorize : Bool
  SLPVectorize : Bool
deriving DecidableEq

/-- `LLVMPY_PassManagerBuilderGetOptLevel` (transforms.cpp:28-32):
returns `pmb->OptLevel`. -/
def LLVMPY_PassManagerBuilderGetOptLevel (pmb : PassManagerBuilder) : Nat :=
  pmb.OptLevel

/-- `LLVMPY_PassManagerBuilderSetOptLevel` (transforms.cpp:34-38):
forwards to the C API, which assigns the unsigned field directly. -/
def LLVMPY_PassManagerBuilderSetOptLevel (pmb : PassManagerBuilder)
    (OptLevel : Nat) : PassManagerBuilder :=
  { pmb with OptLevel := OptLevel }

/-- `LLVMPY_PassManagerBuilderGetSizeLevel` (transforms.cpp:40-44):
returns `pmb->SizeLevel`. -/
def LLVMPY_PassManagerBuilderGetSizeLevel (pmb : PassManagerBuilder) : Nat :=
  pmb.SizeLevel

/-- `LLVMPY_PassManagerBuilderSetSizeLevel` (transforms.cpp:46-50):
forwards to the C API, which assigns the unsigned field directly. -/
def LLVMPY_PassManagerBuilderSetSizeLevel (pmb : PassManagerBuilder)
    (SizeLevel : Nat) : PassManagerBuilder :=
  { pmb with SizeLevel := SizeLevel }

/-- `LLVMPY_PassManagerBuilderGetDisableUnrollLoops`
(transforms.cpp:52-56): returns `pmb->DisableUnrollLoops`, a C++ `bool`
converted to the `int` return type (0 or 1). -/
def LLVMPY_PassManagerBuilderGetDisableUnrollLoops
    (pmb : PassManagerBuilder) : Int :=
  if pmb.DisableUnrollLoops then 1 else 0

/-- `LLVMPY_PassManagerBuilderSetDisableUnrollLoops`
(transforms.cpp:58-62): forwards the `LLVMBool` (an `int`) to the C API,
which assigns it to the `bool` field — C++ bool conversion stores
`Value != 0`. -/
def LLVMPY_PassManagerBuilderSetDisableUnrollLoops
    (pmb : PassManagerBuilder) (Value : Int) : PassManagerBuilder :=
  { pmb with DisableUnrollLoops := Value ≠ 0 }

/-- `LLVMPY_PassManagerBuilderGetLoopVectorize` (transforms.cpp:83-87):
returns `pmb->LoopVectorize`, a C++ `bool` converted to `int` (0 or 1). -/
def LLVMPY_PassManagerBuilderGetLoopVectorize
    (pmb : PassManagerBuilder) : Int :=
  if pmb.LoopVectorize then 1 else 0

/-- `LLVMPY_PassManagerBuilderSetLoopVectorize` (transforms.cpp:76-81):
assigns the `int` argument to the `bool` field `pmb->LoopVectorize` —
C++ bool conversion stores `Value != 0`. -/
def LLVMPY_PassManagerBuilderSetLoopVectorize
    (pmb : PassManagerBuilder) (Value : Int) : PassManagerBuilder :=
  { pmb with LoopVectorize := Value ≠ 0 }

/-- `LLVMPY_PassManagerBuilderGetSLPVectorize` (transforms.cpp:96-100):
returns `pmb->SLPVectorize`, a C++ `bool` converted to `int` (0 or 1). -/
def LLVMPY_PassManagerBuilderGetSLPVectorize
    (pmb : PassManagerBuilder) : Int :=
  if pmb.SLPVectorize then 1 else 0

/-- `LLVMPY_PassManagerBuilderSetSLPVectorize` (transforms.cpp:89-94):
assigns the `int` argument to the `bool` field `pmb->SLPVectorize` —
C++ bool conversion stores `Value != 0`. -/
def LLVMPY_PassManagerBuilderSetSLPVectorize
    (pmb : PassManagerBuilder) (Value : Int) : PassManagerBuilder :=
  { pmb with SLPVectorize := Value ≠ 0 }

/-! ## Basic-block extraction (`ffi/transforms.cpp:104-140`) -/

/-- The slice of `llvm::BasicBlock` these wrappers touch: its name and
the name of the function that owns it (`getParent()`), the latter
modelled so that block membership is expressible. -/
structure BasicBlock where
  name : List Char
  parent : List Char
deriving DecidableEq

/-- An `LLVMValueRef` handle: the dynamic kind of the referenced value.
`other` stands for every value that is neither a function nor a basic
block (arguments, instructions, constants, ...). -/
inductive Value where
  | function (f : Function)
  | basicBlock (bb : BasicBlock)
  | other
deriving DecidableEq

/-- `llvm::dyn_cast<llvm::Function>`: succeeds iff the value is a
function. -/
def dynCastFunction : Value → Option Function
  | .function f => some f
  | _ => none

/-- `llvm::dyn_cast<llvm::BasicBlock>`: succeeds iff the value is a
basic block. -/
def dynCastBasicBlock : Value → Option BasicBlock
  | .basicBlock bb => some bb
  | _ => none

/-- The `__FILE__` expansion in transforms.cpp (build-dependent path;
the concrete value is immaterial, only that it names the source file). -/
def srcFile : String := "ffi/transforms.cpp"

/-- The diagnostic string built at transforms.cpp:109-112 and 116-119:
`std::string(__FILE__) + ":" + std::to_string(__LINE__) + nature`
(note: no separator between the line number and the nature text). -/
def fatalDiagnostic (file : String) (line : Nat) (nature : String) : String :=
  file ++ ":" ++ toString line ++ nature

/-- Message of the fatal error raised when the first handle is not a
function (`__LINE__` expands on transforms.cpp:110). -/
def expectedFunctionMsg : String :=
  fatalDiagnostic srcFile 110 "Expected function"

/-- Message of the fatal error raised when the second handle is not a
basic block (`__LINE__` expands on transforms.cpp:117). -/
def expectedBasicBlockMsg : String :=
  fatalDiagnostic srcFile 117 "Expected basic block"

/-- Observable outcome of a call to `LLVMPY_ExtractBasicBlock`:
a normal return of the outlined function, a process abort through
`llvm::report_fatal_error` with its diagnostic, or undefined behaviour
(here: the dereference of a null pointer). -/
inductive ExtractOutcome where
  | ret (f : Function)
  | fatal (msg : String)
  | undefinedBehavior
deriving DecidableEq

/-- True exactly on the `report_fatal_error` outcome. -/
def ExtractOutcome.isFatal : ExtractOutcome → Bool
  | .fatal _ => true
  | _ => false

/-- `std::replace(FnName.begin(), FnName.end(), '.', '_')`
(transforms.cpp:135): every `'.'` character becomes `'_'`. -/
def sanitizeName (s : List Char) : List Char :=
  s.map fun c => if c = '.' then '_' else c

/-- `LLVMPY_ExtractBasicBlock` (transforms.cpp:104-140), embedded in
source order.  `extractCodeRegion` is
`llvm::CodeExtractor::extractCodeRegion`, LLVM library code outside
this repository, so it enters as an explicit parameter giving the
extraction result (`none` = the null function pointer returned for an
ineligible region).

Faithful control flow:
* failed `dyn_cast<Function>` (line 107-112) → `report_fatal_error`;
* failed `dyn_cast<BasicBlock>` (line 114-119) → `report_fatal_error`;
* line 132 reads `Outlined->getName()` unconditionally, so a null
  extraction result is dereferenced before the null check on line 137 —
  undefined behaviour, the `"extractCodeRegion failed, not eligible"`
  diagnostic is unreachable;
* otherwise the name is sanitised (lines 132-136) and the function is
  returned; the null check on line 137 cannot fire on this path. -/
def LLVMPY_ExtractBasicBlock
    (extractCodeRegion : Function → BasicBlock → Option Function)
    (Func BBlock : Value) : ExtractOutcome :=
  match dynCastFunction Func with
  | none => ExtractOutcome.fatal expectedFunctionMsg
  | some Fn =>
    match dynCastBasicBlock BBlock with
    | none => ExtractOutcome.fatal expectedBasicBlockMsg
    | some BB =>
      match extractCodeRegion Fn BB with
      | none => ExtractOutcome.undefinedBehavior
      | some Outlined =>
        let FnName := sanitizeName Outlined.name
        ExtractOutcome.ret { Outlined with name := FnName }

/-! ## Example values used by witnesses and counterexamples -/

/-- Example function with two attribute groups. -/
def exFunc : Function :=
  { name := "f".toList,
    attributes := [[Attribute.enumAttr 39], []] }

/-- Example global variable with two attributes. -/
def exGlobal : GlobalVariable :=
  { attributes := [Attribute.enumAttr 39, Attribute.stringAttr "k".toList "v".toList] }

/-- Example basic block belonging to `exFunc`. -/
def exBlock : BasicBlock :=
  { name := "entry".toList, parent := "f".toList }

/-- Example basic block whose parent is a different function `g`. -/
def exForeignBlock : BasicBlock :=
  { name := "entry".toList, parent := "g".toList }

/-- Example outlined function as named by the extractor (suffix with a dot). -/
def exOutlined : Function :=
  { name := "f.bblock_extract".toList, attributes := [] }

/-- Example extraction oracle on which extraction always succeeds with
`exOutlined`. -/
def ecrOk : Function → BasicBlock → Option Function :=
  fun _ _ => some exOutlined

/-! ## Helper lemmas -/

/-- Advancing a list cursor never changes its underlying storage or its
end position, and moves `cur` forward by one per call, saturating at the
end position. -/
theorem advanceListIter_state (it : AttributeListIterator) (k : Nat) :
    (advanceListIter it k).groups = it.groups ∧
    (advanceListIter it k).endIdx = it.endIdx ∧
    (it.cur ≤ it.endIdx →
      (advanceListIter it k).cur = min (it.cur + k) it.endIdx) := by
  induction k with
  | zero =>
      refine ⟨rfl, rfl, fun h => ?_⟩
      simp only [advanceListIter]
      omega
  | succ k ih =>
      obtain ⟨hg, he, hc⟩ := ih
      simp only [advanceListIter, LLVMPY_AttributeListIterNext]
      by_cases hcond : (advanceListIter it k).cur = (advanceListIter it k).endIdx
      · simp only [hcond, ne_eq, not_true_eq_false, if_false]
        refine ⟨hg, he, fun h => ?_⟩
        have hcur := hc h
        rw [he] at hcond
        omega
      · simp only [ne_eq, hcond, not_false_eq_true, if_true]
        refine ⟨hg, he, fun h => ?_⟩
        have hcur := hc h
        rw [he] at hcond
        omega

/-- Advancing a set cursor never changes its underlying storage or its
end position, and moves `cur` forward by one per call, saturating at the
end position. -/
theorem advanceSetIter_state (it : AttributeSetIterator) (k : Nat) :
    (advanceSetIter it k).attrs = it.attrs ∧
    (advanceSetIter it k).endIdx = it.endIdx ∧
    (it.cur ≤ it.endIdx →
      (advanceSetIter it k).cur = min (it.cur + k) it.endIdx) := by
  induction k with
  | zero =>
      refine ⟨rfl, rfl, fun h => ?_⟩
      simp only [advanceSetIter]
      omega
  | succ k ih =>
      obtain ⟨hg, he, hc⟩ := ih
      simp only [advanceSetIter, LLVMPY_AttributeSetIterNext]
      by_cases hcond : (advanceSetIter it k).cur = (advanceSetIter it k).endIdx
      · simp only [hcond, ne_eq, not_true_eq_false, if_false]
        refine ⟨hg, he, fun h => ?_⟩
        have hcur := hc h
        rw [he] at hcond
        omega
      · simp only [ne_eq, hcond, not_false_eq_true, if_true]
        refine ⟨hg, he, fun h => ?_⟩
        have hcur := hc h
        rw [he] at hcond
        omega

/-! ## Claim theorems -/

/-- C5: for a function whose attribute list has `N` attribute groups, a
fresh list cursor from `LLVMPY_FunctionAttributesIter` yields a non-null
set-level cursor on each of the first `N` calls to
`LLVMPY_AttributeListIterNext` (the call after `k` prior advances, for
every `k < N`), and the `(N+1)`-th call (after `N` advances) returns
null. -/
theorem functionAttributesIter_counts (F : Function) (k : Nat) :
    (k < F.getAttributes.length →
      ((LLVMPY_AttributeListIterNext
          (advanceListIter (LLVMPY_FunctionAttributesIter F) k)).1.isSome = true)) ∧
    (LLVMPY_AttributeListIterNext
        (advanceListIter (LLVMPY_FunctionAttributesIter F)
          F.getAttributes.length)).1 = none := by
  have h0 : (LLVMPY_FunctionAttributesIter F).cur = 0 := rfl
  have hE : (LLVMPY_FunctionAttributesIter F).endIdx = F.getAttributes.length := rfl
  constructor
  · intro hk
    obtain ⟨hg, he, hc⟩ := advanceListIter_state (LLVMPY_FunctionAttributesIter F) k
    have hcur := hc (by rw [h0, hE]; omega)
    rw [h0, hE] at hcur
    have hne : (advanceListIter (LLVMPY_FunctionAttributesIter F) k).cur ≠
        (advanceListIter (LLVMPY_FunctionAttributesIter F) k).endIdx := by
      rw [he, hE, hcur]; omega
    simp [LLVMPY_AttributeListIterNext, hne]
  · obtain ⟨hg, he, hc⟩ :=
      advanceListIter_state (LLVMPY_FunctionAttributesIter F) F.getAttributes.length
    have hcur := hc (by rw [h0, hE]; omega)
    rw [h0, hE] at hcur
    have heq : (advanceListIter (LLVMPY_FunctionAttributesIter F)
        F.getAttributes.length).cur =
        (advanceListIter (LLVMPY_FunctionAttributesIter F)
          F.getAttributes.length).endIdx := by
      rw [he, hE, hcur]; omega
    simp [LLVMPY_AttributeListIterNext, heq]

/-- Witness for C5 on `exFunc` (two attribute groups): the second call
yields a non-null cursor and the third call yields null. -/
theorem functionAttributesIter_counts_witness :
    ((LLVMPY_AttributeListIterNext
        (advanceListIter (LLVMPY_FunctionAttributesIter exFunc) 1)).1.isSome = true) ∧
    (LLVMPY_AttributeListIterNext
        (advanceListIter (LLVMPY_FunctionAttributesIter exFunc)
          exFunc.getAttributes.length)).1 = none :=
  ⟨(functionAttributesIter_counts exFunc 1).1 (by decide),
   (functionAttributesIter_counts exFunc 0).2⟩

/-- C6: for an attribute set with `M` attributes, a fresh set cursor
(here the one `LLVMPY_GlobalAttributesIter` builds from the set's
begin/end pair) yields a non-null attribute handle on each of the first
`M` calls to `LLVMPY_AttributeSetIterNext`, and the `(M+1)`-th call
returns null. -/
theorem attributeSetIter_counts (G : GlobalVariable) (k : Nat) :
    (k < G.attributes.length →
      ((LLVMPY_AttributeSetIterNext
          (advanceSetIter (LLVMPY_GlobalAttributesIter G) k)).1.isSome = true)) ∧
    (LLVMPY_AttributeSetIterNext
        (advanceSetIter (LLVMPY_GlobalAttributesIter G)
          G.attributes.length)).1 = none := by
  have h0 : (LLVMPY_GlobalAttributesIter G).cur = 0 := rfl
  have hE : (LLVMPY_GlobalAttributesIter G).endIdx = G.attributes.length := rfl
  constructor
  · intro hk
    obtain ⟨hg, he, hc⟩ := advanceSetIter_state (LLVMPY_GlobalAttributesIter G) k
    have hcur := hc (by rw [h0, hE]; omega)
    rw [h0, hE] at hcur
    have hne : (advanceSetIter (LLVMPY_GlobalAttributesIter G) k).cur ≠
        (advanceSetIter (LLVMPY_GlobalAttributesIter G) k).endIdx := by
      rw [he, hE, hcur]; omega
    simp [LLVMPY_AttributeSetIterNext, hne]
  · obtain ⟨hg, he, hc⟩ :=
      advanceSetIter_state (LLVMPY_GlobalAttributesIter G) G.attributes.length
    have hcur := hc (by rw [h0, hE]; omega)
    rw [h0, hE] at hcur
    have heq : (advanceSetIter (LLVMPY_GlobalAttributesIter G)
        G.attributes.length).cur =
        (advanceSetIter (LLVMPY_GlobalAttributesIter G)
          G.attributes.length).endIdx := by
      rw [he, hE, hcur]; omega
    simp [LLVMPY_AttributeSetIterNext, heq]

/-- Witness for C6 on `exGlobal` (two attributes): the second call
yields a non-null attribute and the third call yields null. -/
theorem attributeSetIter_counts_witness :
    ((LLVMPY_AttributeSetIterNext
        (advanceSetIter (LLVMPY_GlobalAttributesIter exGlobal) 1)).1.isSome = true) ∧
    (LLVMPY_AttributeSetIterNext
        (advanceSetIter (LLVMPY_GlobalAttributesIter exGlobal)
          exGlobal.attributes.length)).1 = none :=
  ⟨(attributeSetIter_counts exGlobal 1).1 (by decide),
   (attributeSetIter_counts exGlobal 0).2⟩

/-- C10: a list or set cursor whose current position has reached its end
position returns null on every further advance call and is left with its
state unchanged, so advancing past exhaustion is safe and idempotent. -/
theorem iterNext_after_exhaustion (itL : AttributeListIterator)
    (itS : AttributeSetIterator)
    (hL : itL.cur = itL.endIdx) (hS : itS.cur = itS.endIdx) :
    LLVMPY_AttributeListIterNext itL = (none, itL) ∧
    LLVMPY_AttributeSetIterNext itS = (none, itS) := by
  constructor
  · simp [LLVMPY_AttributeListIterNext, hL]
  · simp [LLVMPY_AttributeSetIterNext, hS]

/-- Witness for C10 on concrete exhausted cursors. -/
theorem iterNext_after_exhaustion_witness :
    LLVMPY_AttributeListIterNext ⟨[], 0, 0⟩ = (none, (⟨[], 0, 0⟩ : AttributeListIterator)) ∧
    LLVMPY_AttributeSetIterNext ⟨[Attribute.enumAttr 39], 1, 1⟩ =
      (none, (⟨[Attribute.enumAttr 39], 1, 1⟩ : AttributeSetIterator)) :=
  iterNext_after_exhaustion ⟨[], 0, 0⟩ ⟨[Attribute.enumAttr 39], 1, 1⟩ rfl rfl

/-- C8: for every attribute handle, exactly one of the four
classification queries `LLVMPY_AttributeIsType`, `LLVMPY_AttributeIsInt`,
`LLVMPY_AttributeIsEnum`, `LLVMPY_AttributeIsString` returns true. -/
theorem attribute_classification_exclusive (A : Attribute) :
    (LLVMPY_AttributeIsType A).toNat + (LLVMPY_AttributeIsInt A).toNat +
      (LLVMPY_AttributeIsEnum A).toNat + (LLVMPY_AttributeIsString A).toNat = 1 := by
  cases A <;> rfl

/-- A successful lookup in the modelled registry comes from one of its
entries. -/
theorem lookupEnumKind_mem (name : List Char) (t : List (List Char × Nat))
    (id : Nat) (h : lookupEnumKind name t = some id) : (name, id) ∈ t := by
  induction t with
  | nil => simp [lookupEnumKind] at h
  | cons p rest ih =>
      obtain ⟨k, v⟩ := p
      unfold lookupEnumKind at h
      by_cases hk : name = k
      · rw [if_pos hk] at h
        cases h
        simp [hk]
      · rw [if_neg hk] at h
        exact List.mem_cons_of_mem _ (ih h)

/-- C9: `LLVMPY_GetEnumAttributeKindForName` returns the zero sentinel
for a name with no registered enum mapping, and for a registered name
returns the id the registry holds for it, which is non-zero; the result
is a pure function of the name, hence identical on every call with that
name. -/
theorem getEnumAttributeKindForName_spec (name : List Char) :
    (lookupEnumKind name enumAttributeKindTable = none →
      LLVMPY_GetEnumAttributeKindForName name = 0) ∧
    (∀ id, lookupEnumKind name enumAttributeKindTable = some id →
      LLVMPY_GetEnumAttributeKindForName name = id ∧ id ≠ 0) := by
  constructor
  · intro h
    simp [LLVMPY_GetEnumAttributeKindForName, h]
  · intro id h
    refine ⟨by simp [LLVMPY_GetEnumAttributeKindForName, h], ?_⟩
    have hmem := lookupEnumKind_mem name enumAttributeKindTable id h
    have hall : ∀ p ∈ enumAttributeKindTable, p.2 ≠ 0 := by decide
    exact hall (name, id) hmem

/-- Witness for C9: the unregistered name "zzz" yields 0, and the
registered name "nonnull" yields the stable non-zero id 39. -/
theorem getEnumAttributeKindForName_spec_witness :
    LLVMPY_GetEnumAttributeKindForName "zzz".toList = 0 ∧
    (LLVMPY_GetEnumAttributeKindForName "nonnull".toList = 39 ∧ 39 ≠ 0) :=
  ⟨(getEnumAttributeKindForName_spec "zzz".toList).1 rfl,
   (getEnumAttributeKindForName_spec "nonnull".toList).2 39 rfl⟩

/-- Counterexample for C7 as stated: setting the loop-vectorize property
to 2 and reading it back yields 1, not 2 — the underlying field is a
boolean toggle, so only the truth value of the set value is stored. -/
theorem passManagerBuilder_roundTrip_cex :
    LLVMPY_PassManagerBuilderGetLoopVectorize
      (LLVMPY_PassManagerBuilderSetLoopVectorize
        ⟨0, 0, false, false, false⟩ 2) ≠ 2 := by
  decide

/-- C7 (amended): the optimization level and size level round-trip
exactly for every value; for the boolean properties
(disable-unroll-loops, loop-vectorize, SLP-vectorize) a get after a set
of `v` returns 0 if `v = 0` and 1 otherwise — an exact round-trip
exactly for `v ∈ {0, 1}`. -/
theorem passManagerBuilder_roundTrip (pmb : PassManagerBuilder)
    (n : Nat) (v : Int) :
    LLVMPY_PassManagerBuilderGetOptLevel
      (LLVMPY_PassManagerBuilderSetOptLevel pmb n) = n ∧
    LLVMPY_PassManagerBuilderGetSizeLevel
      (LLVMPY_PassManagerBuilderSetSizeLevel pmb n) = n ∧
    LLVMPY_PassManagerBuilderGetDisableUnrollLoops
      (LLVMPY_PassManagerBuilderSetDisableUnrollLoops pmb v) =
        (if v = 0 then 0 else 1) ∧
    LLVMPY_PassManagerBuilderGetLoopVectorize
      (LLVMPY_PassManagerBuilderSetLoopVectorize pmb v) =
        (if v = 0 then 0 else 1) ∧
    LLVMPY_PassManagerBuilderGetSLPVectorize
      (LLVMPY_PassManagerBuilderSetSLPVectorize pmb v) =
        (if v = 0 then 0 else 1) := by
  refine ⟨rfl, rfl, ?_, ?_, ?_⟩ <;>
    · by_cases h : v = 0 <;>
        simp [LLVMPY_PassManagerBuilderGetDisableUnrollLoops,
              LLVMPY_PassManagerBuilderSetDisableUnrollLoops,
              LLVMPY_PassManagerBuilderGetLoopVectorize,
              LLVMPY_PassManagerBuilderSetLoopVectorize,
              LLVMPY_PassManagerBuilderGetSLPVectorize,
              LLVMPY_PassManagerBuilderSetSLPVectorize, h]

/-- C1: when the extraction itself fails (the extractor returns the
null function for an ineligible single-block region), the call does not
fail fatally with the intended diagnostic: line 132 reads
`Outlined->getName()` before the null check on line 137, so the outcome
is a null-pointer dereference (undefined behaviour) and no
`report_fatal_error` outcome is reachable on this path.  Evaluated at a
concrete failing input. -/
theorem extractBasicBlock_failed_extraction_null_deref :
    LLVMPY_ExtractBasicBlock (fun _ _ => none)
        (Value.function exFunc) (Value.basicBlock exBlock) =
      ExtractOutcome.undefinedBehavior ∧
    ∀ msg, LLVMPY_ExtractBasicBlock (fun _ _ => none)
        (Value.function exFunc) (Value.basicBlock exBlock) ≠
      ExtractOutcome.fatal msg := by
  refine ⟨rfl, fun msg h => ?_⟩
  rw [show LLVMPY_ExtractBasicBlock (fun _ _ => none)
      (Value.function exFunc) (Value.basicBlock exBlock) =
      ExtractOutcome.undefinedBehavior from rfl] at h
  exact ExtractOutcome.noConfusion h

/-- Counterexample to C2 as stated: with correctly-kinded handles, a
basic block whose parent is a different function (`exForeignBlock` lives
in "g", the function handle refers to "f") does not trigger the fatal
path — there is no membership validation, and when the extraction
succeeds the call returns normally. -/
theorem extractBasicBlock_foreign_block_not_fatal :
    exForeignBlock.parent ≠ exFunc.name ∧
    (LLVMPY_ExtractBasicBlock ecrOk (Value.function exFunc)
        (Value.basicBlock exForeignBlock)).isFatal = false := by
  exact ⟨by decide, rfl⟩

/-- C2 (amended): the wrapper validates only the dynamic kinds of the
two handles.  A handle that is not a basic block is fatal, but a genuine
basic block that does not belong to the given function passes
validation: when extraction succeeds on it the call returns the outlined
function normally, with no fatal outcome. -/
theorem extractBasicBlock_no_membership_check
    (ecr : Function → BasicBlock → Option Function)
    (fn : Function) (bb : BasicBlock) (g : Function)
    (_hmem : bb.parent ≠ fn.name) (hecr : ecr fn bb = some g) :
    LLVMPY_ExtractBasicBlock ecr (Value.function fn) (Value.basicBlock bb) =
      ExtractOutcome.ret { g with name := sanitizeName g.name } ∧
    (∀ v, dynCastBasicBlock v = none →
      LLVMPY_ExtractBasicBlock ecr (Value.function fn) v =
        ExtractOutcome.fatal expectedBasicBlockMsg) := by
  constructor
  · unfold LLVMPY_ExtractBasicBlock
    simp [dynCastFunction, dynCastBasicBlock, hecr]
  · intro v hv
    unfold LLVMPY_ExtractBasicBlock
    simp [dynCastFunction, hv]

/-- Witness for C2 (amended) at concrete values: the foreign block is
extracted without a fatal outcome, while a non-block handle is fatal. -/
theorem extractBasicBlock_no_membership_check_witness :
    LLVMPY_ExtractBasicBlock ecrOk (Value.function exFunc)
        (Value.basicBlock exForeignBlock) =
      ExtractOutcome.ret { exOutlined with name := sanitizeName exOutlined.name } ∧
    LLVMPY_ExtractBasicBlock ecrOk (Value.function exFunc) Value.other =
      ExtractOutcome.fatal expectedBasicBlockMsg :=
  ⟨(extractBasicBlock_no_membership_check ecrOk exFunc exForeignBlock
      exOutlined (by decide) rfl).1,
   (extractBasicBlock_no_membership_check ecrOk exFunc exForeignBlock
      exOutlined (by decide) rfl).2 Value.other rfl⟩

/-- C3: a call whose first handle is not a function value, or whose
first handle is a function but whose second handle is not a basic-block
value, aborts through `report_fatal_error` with a diagnostic naming the
source file, the line, and the nature of the mismatch ("Expected
function" / "Expected basic block"), and does not return a value. -/
theorem extractBasicBlock_kind_mismatch_fatal
    (ecr : Function → BasicBlock → Option Function) (Func BBlock : Value) :
    (dynCastFunction Func = none →
      LLVMPY_ExtractBasicBlock ecr Func BBlock =
        ExtractOutcome.fatal (fatalDiagnostic srcFile 110 "Expected function") ∧
      ∀ g, LLVMPY_ExtractBasicBlock ecr Func BBlock ≠ ExtractOutcome.ret g) ∧
    (dynCastFunction Func ≠ none → dynCastBasicBlock BBlock = none →
      LLVMPY_ExtractBasicBlock ecr Func BBlock =
        ExtractOutcome.fatal (fatalDiagnostic srcFile 117 "Expected basic block") ∧
      ∀ g, LLVMPY_ExtractBasicBlock ecr Func BBlock ≠ ExtractOutcome.ret g) := by
  constructor
  · intro h
    unfold LLVMPY_ExtractBasicBlock
    rw [h]
    exact ⟨rfl, fun g hg => ExtractOutcome.noConfusion hg⟩
  · intro hf hb
    obtain ⟨fn, hfn⟩ := Option.ne_none_iff_exists'.1 hf
    unfold LLVMPY_ExtractBasicBlock
    rw [hfn, hb]
    exact ⟨rfl, fun g hg => ExtractOutcome.noConfusion hg⟩

/-- Witness for C3 at concrete mismatched handles. -/
theorem extractBasicBlock_kind_mismatch_fatal_witness :
    LLVMPY_ExtractBasicBlock ecrOk Value.other Value.other =
      ExtractOutcome.fatal (fatalDiagnostic srcFile 110 "Expected function") ∧
    LLVMPY_ExtractBasicBlock ecrOk (Value.function exFunc) Value.other =
      ExtractOutcome.fatal (fatalDiagnostic srcFile 117 "Expected basic block") :=
  ⟨((extractBasicBlock_kind_mismatch_fatal ecrOk Value.other Value.other).1 rfl).1,
   ((extractBasicBlock_kind_mismatch_fatal ecrOk
      (Value.function exFunc) Value.other).2 (by decide) rfl).1⟩

/-- C4: every successful call to `LLVMPY_ExtractBasicBlock` returns a
function whose name contains no dot character: the name produced by the
extractor is sanitised by replacing every dot with an underscore before
the handle is returned. -/
theorem extractBasicBlock_name_no_dot
    (ecr : Function → BasicBlock → Option Function) (Func BBlock : Value)
    (g : Function)
    (h : LLVMPY_ExtractBasicBlock ecr Func BBlock = ExtractOutcome.ret g) :
    '.' ∉ g.name := by
  cases Func with
  | basicBlock b =>
      simp [LLVMPY_ExtractBasicBlock, dynCastFunction] at h
  | other =>
      simp [LLVMPY_ExtractBasicBlock, dynCastFunction] at h
  | function fn =>
    cases BBlock with
    | function f2 =>
        simp [LLVMPY_ExtractBasicBlock, dynCastFunction, dynCastBasicBlock] at h
    | other =>
        simp [LLVMPY_ExtractBasicBlock, dynCastFunction, dynCastBasicBlock] at h
    | basicBlock bb =>
      cases he : ecr fn bb with
      | none =>
          simp [LLVMPY_ExtractBasicBlock, dynCastFunction, dynCastBasicBlock,
                he] at h
      | some out =>
        simp only [LLVMPY_ExtractBasicBlock, dynCastFunction,
                   dynCastBasicBlock, he] at h
        injection h with h2
        rw [← h2]
        show '.' ∉ sanitizeName out.name
        intro hdot
        simp only [sanitizeName] at hdot
        obtain ⟨c, -, hc⟩ := List.mem_map.1 hdot
        by_cases hcd : c = '.'
        · rw [if_pos hcd] at hc
          exact absurd hc (by decide)
        · rw [if_neg hcd] at hc
          exact hcd hc

/-- Witness for C4 at a concrete successful call: the outlined function
named "f.bblock_extract" is returned as "f_bblock_extract". -/
theorem extractBasicBlock_name_no_dot_witness :
    '.' ∉ (Function.mk (sanitizeName exOutlined.name) [] : Function).name :=
  extractBasicBlock_name_no_dot ecrOk (Value.function exFunc)
    (Value.basicBlock exForeignBlock)
    (Function.mk (sanitizeName exOutlined.name) []) rfl

end Llvmlite
